import Mathlib

/-!
Shallow embedding of `src/example/after-using-arjan-fanboy.py`.

The program consists of:
- a `Switchable` protocol with two methods, `turn_on` and `turn_off`
  (the spec calls them "activate" and "deactivate");
- a `LightBulb` class implementing the protocol by printing one line
  per call ("LightBulb: turned on..." / "LightBulb: turned off...");
- an `ElectricPowerSwitch` dataclass with fields `device : Switchable`
  and `is_on : bool = False`, whose `press` method calls `turn_off` and
  clears the flag when `is_on` holds, and otherwise calls `turn_on` and
  sets the flag;
- a `main` routine constructing one bulb, one switch bound to it, and
  pressing twice.

The controller interacts with its device only through the two protocol
methods, so `press` is embedded as a pure function returning the new
controller state together with the ordered list of method calls it made
on the bound device.  `LightBulb.runCalls` interprets such a call list
as the lines the bulb prints (the bulb has no attributes, so a call's
output does not depend on any prior call).
-/

/-- The two methods of the `Switchable` protocol: `turn_on` is the
"activate" operation and `turn_off` the "deactivate" operation. -/
inductive DeviceCall where
  | turn_on
  | turn_off
  deriving DecidableEq

/-- `class LightBulb`: no attributes. -/
structure LightBulb where

/-- `LightBulb.turn_on`: prints the single line "LightBulb: turned on...". -/
def LightBulb.turn_on (_ : LightBulb) : List String :=
  ["LightBulb: turned on..."]

/-- `LightBulb.turn_off`: prints the single line "LightBulb: turned off...". -/
def LightBulb.turn_off (_ : LightBulb) : List String :=
  ["LightBulb: turned off..."]

/-- Interpret a list of protocol-method calls against a `LightBulb`,
collecting the printed lines in order. -/
def LightBulb.runCalls (b : LightBulb) : List DeviceCall → List String
  | [] => []
  | DeviceCall.turn_on :: rest => b.turn_on ++ b.runCalls rest
  | DeviceCall.turn_off :: rest => b.turn_off ++ b.runCalls rest

/-- `@dataclass(slots=True) class ElectricPowerSwitch`: a `device`
field (reference to any `Switchable`) and a boolean `is_on` field
defaulting to `False`. -/
structure ElectricPowerSwitch (Device : Type) where
  device : Device
  is_on : Bool := false

/-- `ElectricPowerSwitch.press`: if `self.is_on`, call
`self.device.turn_off()` and set `self.is_on = False`; otherwise call
`self.device.turn_on()` and set `self.is_on = True`.  Returns the
updated controller and the ordered list of method calls made on the
bound device. -/
def ElectricPowerSwitch.press {Device : Type} (s : ElectricPowerSwitch Device) :
    ElectricPowerSwitch Device × List DeviceCall :=
  if s.is_on then
    ({ s with is_on := false }, [DeviceCall.turn_off])
  else
    ({ s with is_on := true }, [DeviceCall.turn_on])

/-- Iterate `press` `n` times, concatenating the device-call traces in
order. -/
def ElectricPowerSwitch.pressN {Device : Type} (s : ElectricPowerSwitch Device) :
    Nat → ElectricPowerSwitch Device × List DeviceCall
  | 0 => (s, [])
  | n + 1 =>
    let r := s.press
    let r2 := r.1.pressN n
    (r2.1, r.2 ++ r2.2)

namespace PyProgram

/-- `main`: construct a `LightBulb`, construct an `ElectricPowerSwitch`
bound to it (with the default `is_on = False`), press twice.  The value
is everything the run writes to standard output, in order. -/
def main : List String :=
  let bulb : LightBulb := ⟨⟩
  let switch : ElectricPowerSwitch LightBulb := { device := bulb }
  let r1 := switch.press
  let r2 := r1.1.press
  bulb.runCalls (r1.2 ++ r2.2)

end PyProgram

/-! ### Helper lemmas -/

/-- `press` always flips the `is_on` flag. -/
theorem ElectricPowerSwitch.press_flips {Device : Type}
    (s : ElectricPowerSwitch Device) : s.press.1.is_on = !s.is_on := by
  unfold ElectricPowerSwitch.press
  cases h : s.is_on <;> simp

/-- `press` leaves the `device` field untouched. -/
theorem ElectricPowerSwitch.press_keeps_device {Device : Type}
    (s : ElectricPowerSwitch Device) : s.press.1.device = s.device := by
  unfold ElectricPowerSwitch.press
  cases h : s.is_on <;> simp

/-- The flag after `n` presses is the starting flag xor the parity of `n`. -/
theorem ElectricPowerSwitch.pressN_is_on {Device : Type}
    (n : Nat) (s : ElectricPowerSwitch Device) :
    (s.pressN n).1.is_on = xor (decide (Odd n)) s.is_on := by
  induction n generalizing s with
  | zero => simp [ElectricPowerSwitch.pressN]
  | succ m ih =>
      have hodd : decide (Odd (m + 1)) = !decide (Odd m) := by
        simp [Nat.odd_add_one, ← Nat.not_odd_iff_even, decide_not]
      simp only [ElectricPowerSwitch.pressN]
      rw [ih, s.press_flips, hodd]
      cases hd : decide (Odd m) <;> cases hb : s.is_on <;> simp

/-- Each interpreted call prints exactly one line. -/
theorem LightBulb.runCalls_length (b : LightBulb) (calls : List DeviceCall) :
    (b.runCalls calls).length = calls.length := by
  induction calls with
  | nil => rfl
  | cons c rest ih =>
      cases c <;>
        simp [LightBulb.runCalls, LightBulb.turn_on, LightBulb.turn_off, ih]

/-! ### Claims -/

/-- C1: a controller constructed fresh has `is_on = false`, and after
exactly `n` calls to `press` the `is_on` flag equals the parity of `n`
(true exactly when `n` is odd). -/
theorem claim1_fresh_pressN_is_on_iff_odd {Device : Type} (d : Device) (n : Nat) :
    (({ device := d } : ElectricPowerSwitch Device).is_on = false) ∧
    ((({ device := d } : ElectricPowerSwitch Device).pressN n).1.is_on
      = decide (Odd n)) := by
  refine ⟨rfl, ?_⟩
  rw [ElectricPowerSwitch.pressN_is_on]
  simp

/-- C2 counterexample: pressing a fresh (OFF) controller makes the single
device call `turn_on` (activate); no `turn_off` (deactivate) call occurs,
refuting the claim that an OFF press invokes `deactivate()` and then
`activate()`. -/
theorem claim2_counterexample :
    (({ device := () } : ElectricPowerSwitch Unit).press.2 = [DeviceCall.turn_on]) ∧
    ¬ DeviceCall.turn_off ∈ ({ device := () } : ElectricPowerSwitch Unit).press.2 := by
  decide

/-- C2 (amended): whenever `press` is called while the controller is OFF,
the controller invokes `device.turn_on()` (activate) as its only device
call — it never invokes `deactivate` — and transitions to ON. -/
theorem claim2_press_off_activates {Device : Type} (s : ElectricPowerSwitch Device)
    (h : s.is_on = false) :
    s.press.2 = [DeviceCall.turn_on] ∧ s.press.1.is_on = true := by
  unfold ElectricPowerSwitch.press
  simp [h]

/-- C2 witness: the amended claim at a concrete fresh controller. -/
theorem claim2_press_off_activates_witness :
    (({ device := () } : ElectricPowerSwitch Unit).press.2 = [DeviceCall.turn_on]) ∧
    (({ device := () } : ElectricPowerSwitch Unit).press.1.is_on = true) :=
  claim2_press_off_activates ({ device := () } : ElectricPowerSwitch Unit) rfl

/-- C3: every `press`, in either state, makes exactly one call on the
bound device, the flag always flips in the same atomic result, and the
single device call agrees with the new flag (activate exactly when the
new flag is true): flag and device call are never updated apart. -/
theorem claim3_press_exactly_one_call {Device : Type} (s : ElectricPowerSwitch Device) :
    s.press.2.length = 1 ∧
    s.press.1.is_on = !s.is_on ∧
    s.press.2 = [if s.press.1.is_on then DeviceCall.turn_on else DeviceCall.turn_off] := by
  unfold ElectricPowerSwitch.press
  cases h : s.is_on <;> simp

/-- C4: whenever `press` is called while the controller is ON, the
controller invokes `device.turn_off()` (deactivate) as its only device
call and transitions to OFF. -/
theorem claim4_press_on_deactivates {Device : Type} (s : ElectricPowerSwitch Device)
    (h : s.is_on = true) :
    s.press.2 = [DeviceCall.turn_off] ∧ s.press.1.is_on = false := by
  unfold ElectricPowerSwitch.press
  simp [h]

/-- C4 witness: the theorem at a concrete ON controller. -/
theorem claim4_press_on_deactivates_witness :
    (({ device := (), is_on := true } : ElectricPowerSwitch Unit).press.2
      = [DeviceCall.turn_off]) ∧
    (({ device := (), is_on := true } : ElectricPowerSwitch Unit).press.1.is_on = false) :=
  claim4_press_on_deactivates
    ({ device := (), is_on := true } : ElectricPowerSwitch Unit) rfl

/-- C5: for a fresh controller over a `LightBulb`, after one `press` the
flag is true, the bulb printed exactly the activate notification (so it
was emitted exactly once), and the trace holds one `turn_on` call and no
`turn_off` call. -/
theorem claim5_one_press_activates_once :
    (({ device := LightBulb.mk } : ElectricPowerSwitch LightBulb).press.1.is_on = true) ∧
    (LightBulb.mk.runCalls
        ({ device := LightBulb.mk } : ElectricPowerSwitch LightBulb).press.2
      = ["LightBulb: turned on..."]) ∧
    (({ device := LightBulb.mk } : ElectricPowerSwitch LightBulb).press.2.count
        DeviceCall.turn_on = 1) ∧
    (({ device := LightBulb.mk } : ElectricPowerSwitch LightBulb).press.2.count
        DeviceCall.turn_off = 0) :=
  ⟨rfl, rfl, rfl, rfl⟩

/-- C6: for a fresh controller over a `LightBulb`, after two consecutive
`press` calls the flag is false, and the output is exactly the activate
notification followed by the deactivate notification — each emitted once,
activate first. -/
theorem claim6_two_presses_on_then_off :
    ((({ device := LightBulb.mk } : ElectricPowerSwitch LightBulb).pressN 2).1.is_on
      = false) ∧
    (LightBulb.mk.runCalls
        (({ device := LightBulb.mk } : ElectricPowerSwitch LightBulb).pressN 2).2
      = ["LightBulb: turned on...", "LightBulb: turned off..."]) ∧
    ((({ device := LightBulb.mk } : ElectricPowerSwitch LightBulb).pressN 2).2.count
        DeviceCall.turn_on = 1) ∧
    ((({ device := LightBulb.mk } : ElectricPowerSwitch LightBulb).pressN 2).2.count
        DeviceCall.turn_off = 1) :=
  ⟨rfl, rfl, rfl, rfl⟩

/-- C7: `LightBulb` is stateless — it has no attributes, each method call
emits exactly its one notification whatever came before, and calling
activate twice in a row emits the activate notification twice. -/
theorem claim7_lightbulb_stateless (b b' : LightBulb) (calls : List DeviceCall) :
    b = b' ∧
    b.turn_on = ["LightBulb: turned on..."] ∧
    b.turn_off = ["LightBulb: turned off..."] ∧
    (b.runCalls calls).length = calls.length ∧
    b.runCalls [DeviceCall.turn_on, DeviceCall.turn_on]
      = ["LightBulb: turned on...", "LightBulb: turned on..."] :=
  ⟨rfl, rfl, rfl, b.runCalls_length calls, rfl⟩

/-- C8: the entry routine presses its one switch twice and the whole run
writes exactly two lines to standard output: the "turned on" line
followed by the "turned off" line, with the text coming from
`LightBulb`. -/
theorem claim8_main_output :
    PyProgram.main = ["LightBulb: turned on...", "LightBulb: turned off..."] ∧
    PyProgram.main.length = 2 :=
  ⟨rfl, rfl⟩

/-- C9: `press` composed with `press` is the identity on the `is_on`
flag: from any starting state, two consecutive presses restore the
flag's starting value. -/
theorem claim9_press_press_id_on_flag {Device : Type} (s : ElectricPowerSwitch Device) :
    s.press.1.press.1.is_on = s.is_on := by
  rw [ElectricPowerSwitch.press_flips, ElectricPowerSwitch.press_flips, Bool.not_not]

/-- C10: `press` never changes the controller's `device` field — from any
state, the device reference after a press is the one from before, so
`is_on` is the only field `press` mutates. -/
theorem claim10_press_device_frame {Device : Type} (s : ElectricPowerSwitch Device) :
    s.press.1.device = s.device :=
  s.press_keeps_device
